import Mathlib

/-!
# School zone warning prediction pipeline - verification development

Shallow embedding of the notebook pipeline that samples points along road
geometries (road-point sampler), fetches street-level imagery metadata and
image files for those points (imagery fetcher), and classifies the fetched
images (prediction stage).

Geometric points are modelled as complex numbers, whose metric is the
Euclidean distance on the plane: the real part is the x (longitude)
coordinate and the imaginary part is the y (latitude) coordinate, matching
the (x, y) tuples the sampler builds.  Python strings are modelled as lists
of characters.
-/

namespace SchoolZone

/-! ## Road point sampler (road-points notebook) -/

/-- Modelled from the numpy documentation for the library call
`np.arange(0, stop, step)` that the sampler uses: the result holds
`ceil((stop - 0) / step)` evenly spaced values when that quantity is
positive (`Nat.ceil` is zero on nonpositive reals), the k-th value being
`k * step`. -/
noncomputable def np_arange (stop step : ℝ) : List ℝ :=
  (List.range ⌈stop / step⌉₊).map (fun k : ℕ => (k : ℝ) * step)

/-- Length of a piecewise-linear path: the sum of the Euclidean lengths of
its segments.  This embeds `line_geometry.length` of the geometry library
for a linestring with the given vertices. -/
noncomputable def pathLength : List ℂ → ℝ
  | [] => 0
  | [_] => 0
  | p :: q :: rest => dist p q + pathLength (q :: rest)

/-- The point of the segment from `p` to `q` at distance `d` from `p`
(linear interpolation; a degenerate segment stays at `p`). -/
noncomputable def segInterp (p q : ℂ) (d : ℝ) : ℂ :=
  if dist p q = 0 then p else p + (d / dist p q) • (q - p)

/-- Arc-length interpolation along a piecewise-linear path, embedding
`line_geometry.interpolate(d)` of the geometry library: walk the segments,
spending `dist p q` of the distance budget on each, and clamp at the final
vertex. -/
noncomputable def interpolate : List ℂ → ℝ → ℂ
  | [], _ => 0
  | [p], _ => p
  | p :: q :: rest, d =>
      if d ≤ dist p q then segInterp p q d
      else interpolate (q :: rest) (d - dist p q)

/-- The sampler function `densify_geometry(line_geometry, step)` on its
`crs=None` path: interpolate one point for every arc-length distance in
`np.arange(0, length, step)` and return the list of coordinate tuples. -/
noncomputable def densify_geometry (line : List ℂ) (step : ℝ) : List ℂ :=
  (np_arange (pathLength line) step).map (interpolate line)

/-- The whole of `densify_geometry(line_geometry, step, crs)`.  In the
source, the line `new_line=LineString(xy)` is commented out, so on the
`crs != None` branch the expression `gpd.geoseries.GeoSeries(new_line, crs=crs)`
reads a name that is bound nowhere (neither locally nor globally) and the
call raises `NameError` before returning; only the `crs == None` branch
returns the coordinate list. -/
noncomputable def densify_geometry_with_crs (line : List ℂ) (step : ℝ)
    (crs : Option ℕ) : Except (List Char) (List ℂ) :=
  match crs with
  | some _ => .error "NameError: name new_line is not defined".toList
  | none => .ok (densify_geometry line step)

/-- One row of the road GeoDataFrame: geometry (absent when null), the
highway classification, the road name and the road length column. -/
structure RoadRow where
  geometry : Option (List ℂ)
  highway : List Char
  name : List Char
  length : ℝ

/-- The boolean row filter of `gather_road_points`:
`~(gdf["geometry"].isna()) & ~(gdf["highway"] == "service")`. -/
def retained_row (r : RoadRow) : Bool :=
  !r.geometry.isNone && !(r.highway == "service".toList)

/-- The output columns of `gather_road_points` (five parallel lists, as the
source accumulates them). -/
structure RoadPointsDF where
  road_name : List (List Char)
  lon : List ℝ
  lat : List ℝ
  road_length : List ℝ
  bearing : List ℝ

/-- The empty output. -/
def empty_df : RoadPointsDF := ⟨[], [], [], [], []⟩

/-- Column-wise concatenation, mirroring the `+=` accumulation of the
source loop. -/
def df_append (a b : RoadPointsDF) : RoadPointsDF :=
  ⟨a.road_name ++ b.road_name, a.lon ++ b.lon, a.lat ++ b.lat,
   a.road_length ++ b.road_length, a.bearing ++ b.bearing⟩

/-- The bearing loop of `gather_road_points` over the densified points of
one path, parametric in the external bearing routine `B` (the library call
`ox.bearing.get_bearing`, applied to the coordinate tuples exactly as the
source passes them): at index 0 the source computes
`B(densified_points[1], densified_points[0])`, and at index `x > 0` it
computes `B(densified_points[x], densified_points[x-1])`. -/
noncomputable def road_bearings (B : ℂ → ℂ → ℝ) (pts : List ℂ) : List ℝ :=
  (List.range pts.length).map (fun x =>
    if x = 0 then B (pts.getD (x + 1) 0) (pts.getD x 0)
    else B (pts.getD x 0) (pts.getD (x - 1) 0))

/-- The contribution of one retained row to the output of
`gather_road_points`: densify its geometry with the hardcoded step 0.0002,
and when more than one point results, emit the latitude, longitude, name,
length and bearing columns for those points; otherwise emit nothing. -/
noncomputable def row_contrib (B : ℂ → ℂ → ℝ) (r : RoadRow) : RoadPointsDF :=
  match r.geometry with
  | none => empty_df
  | some g =>
      let pts := densify_geometry g 0.0002
      if 1 < pts.length then
        ⟨pts.map (fun _ => r.name), pts.map Complex.re, pts.map Complex.im,
         pts.map (fun _ => r.length), road_bearings B pts⟩
      else empty_df

/-- `gather_road_points(gdf)`: iterate the filtered rows in order and
accumulate each retained row's contribution. -/
noncomputable def gather_road_points (B : ℂ → ℂ → ℝ) (gdf : List RoadRow) :
    RoadPointsDF :=
  ((gdf.filter retained_row).map (row_contrib B)).foldr df_append empty_df

/-- Modelled from the spec: the external bearing routine is a standard
forward-azimuth formula from its first argument to its second (the routine
itself is library code, not part of this repository).  It is modelled
exactly on axis-aligned pairs of points, where every standard forward
azimuth takes the cardinal values 0, 90, 180 and 270 degrees; no theorem
evaluates it elsewhere. -/
noncomputable def forward_azimuth (p q : ℂ) : ℝ :=
  if p.im = q.im then
    if p.re < q.re then 90 else if q.re < p.re then 270 else 0
  else if p.re = q.re then
    if p.im < q.im then 0 else 180
  else 0

/-! ## Street imagery fetcher (street-images notebook) -/

/-- Python `str.replace` with the one-character pattern and replacement the
fetcher uses: every matching character is replaced. -/
def py_replace (pat rep : Char) (s : List Char) : List Char :=
  s.map (fun c => if c = pat then rep else c)

/-- The parameter dictionary built by `gather_google_streetview_meta`:
`size` is the literal `"640x640"`, `location` is `"{lat},{lon}"` formatted
from the string representations of the coordinates, `heading` the string
representation of the bearing, `key` the credential. -/
structure SVParams where
  size : List Char
  location : List Char
  heading : List Char
  key : List Char
deriving DecidableEq

/-- The parameter dictionary for given coordinate, bearing and credential
strings. -/
def mk_params (lat lon bearing creds : List Char) : SVParams :=
  ⟨"640x640".toList, lat ++ [','] ++ lon, bearing, creds⟩

/-- The fields of the external results object that the fetcher reads: the
parameters it was built from, `metadata[0]["status"]`, and the image links. -/
structure SVResults where
  params : SVParams
  status : List Char
  links : List (List Char)
deriving DecidableEq

/-- Outcome of the external metadata API call for one parameter set: the
call either raises or returns a results object with some status and links. -/
inductive ApiOutcome where
  | raises
  | returns (status : List Char) (links : List (List Char))

/-- The three values `gather_google_streetview_meta` can produce in the
source: the results object (status `"OK"`), the implicit `None` of the
fall-through when the status is not `"OK"`, and `pd.NA` from the
`except` clause. -/
inductive MetaReturn where
  | results (r : SVResults)
  | pynone
  | pdNA
deriving DecidableEq

/-- `gather_google_streetview_meta(lat, lon, bearing, creds)`, parametric
in the behaviour `api` of the external metadata call: build the parameter
dictionary; if the call raises, return `pd.NA`; if it returns with status
`"OK"`, return the results object; otherwise fall through and return
`None`. -/
def gather_google_streetview_meta (lat lon bearing creds : List Char)
    (api : SVParams → ApiOutcome) : MetaReturn :=
  let params := mk_params lat lon bearing creds
  match api params with
  | .raises => .pdNA
  | .returns status links =>
      if status = "OK".toList then .results ⟨params, status, links⟩ else .pynone

/-- The filename computed by `download_google_streetview_image`:
`"{}_{}.jpg".format(location.replace(",", "_"), heading)`. -/
def derived_filename (r : SVResults) : List Char :=
  py_replace ',' '_' r.params.location ++ ['_'] ++ r.params.heading ++ ".jpg".toList

/-- Result of running `download_google_streetview_image` on one row
against a filesystem state: the returned path, the filesystem afterwards,
and how many image downloads were performed. -/
structure FetchResult where
  path : Option (List Char)
  fs : List (List Char)
  downloads : ℕ
deriving DecidableEq

/-- `download_google_streetview_image(results, data_dir)` over an explicit
filesystem state (the set of files that exist): return `None` when the
status is not `"OK"`; otherwise derive the file path, download only when
the file does not already exist, and return the path. -/
def download_google_streetview_image (r : SVResults) (data_dir : List Char)
    (fs : List (List Char)) : FetchResult :=
  if r.status ≠ "OK".toList then ⟨none, fs, 0⟩
  else if data_dir ++ ['/'] ++ derived_filename r ∈ fs then
    ⟨some (data_dir ++ ['/'] ++ derived_filename r), fs, 0⟩
  else
    ⟨some (data_dir ++ ['/'] ++ derived_filename r),
     (data_dir ++ ['/'] ++ derived_filename r) :: fs, 1⟩

/-- The per-row body of the fetch-stage `df.apply`:
`download_google_streetview_image(meta, data_dir) if meta != None else None`.
When the metadata value is the `pd.NA` sentinel from a raised lookup, the
Python comparison `pd.NA != None` evaluates to `True` (neither operand
implements the comparison, so identity is used), so the download function
is called on `pd.NA` and its attribute access `pd.NA.metadata` raises
`AttributeError`; only an actual `None` metadata value is skipped. -/
def fetch_stage_row (meta : MetaReturn) (data_dir : List Char)
    (fs : List (List Char)) : Except (List Char) FetchResult :=
  match meta with
  | .pynone => .ok ⟨none, fs, 0⟩
  | .results r => .ok (download_google_streetview_image r data_dir fs)
  | .pdNA => .error "AttributeError: NA has no attribute metadata".toList

/-! ## Prediction stage (model-predict notebook) -/

/-- One input row of the prediction stage (the columns of the streetview
parquet artifact): the sampler columns plus the fetched image path, absent
when imagery retrieval failed. -/
structure PredRow where
  road_name : List Char
  lon : ℝ
  lat : ℝ
  road_length : ℝ
  bearing : ℝ
  google_streetview_image : Option (List Char)

/-- One row after the classification `apply`: the input columns plus the
two prediction columns, which remain missing (pandas fills `NaN` when the
row function did not set them) for rows that were not classified. -/
structure PredOutRow where
  road_name : List Char
  lon : ℝ
  lat : ℝ
  road_length : ℝ
  bearing : ℝ
  google_streetview_image : Option (List Char)
  schoolsign_prediction : Option (List Char)
  schoolsign_prediction_prob : Option ℝ

/-- The input columns of an output row. -/
def pred_base (o : PredOutRow) : PredRow :=
  ⟨o.road_name, o.lon, o.lat, o.road_length, o.bearing, o.google_streetview_image⟩

/-- The per-row body of the classification `apply`, parametric in the
external classifier `model` (its label and probability for an image):
`gather_predictions(x, prediction_model) if x["google_streetview_image"] != None else x`.
A row with an image gets the two prediction columns set from the
classifier; a row without one is passed through unchanged, leaving its
prediction columns missing. -/
def predict_stage_row (model : List Char → List Char × ℝ) (r : PredRow) :
    PredOutRow :=
  match r.google_streetview_image with
  | some img =>
      ⟨r.road_name, r.lon, r.lat, r.road_length, r.bearing, some img,
       some (model img).1, some (model img).2⟩
  | none =>
      ⟨r.road_name, r.lon, r.lat, r.road_length, r.bearing, none, none, none⟩

/-- The `df.dropna()` before the final export: keep only rows whose
nullable columns are all present. -/
def df_dropna (rows : List PredOutRow) : List PredOutRow :=
  rows.filter (fun r =>
    r.google_streetview_image.isSome &&
      (r.schoolsign_prediction.isSome && r.schoolsign_prediction_prob.isSome))

/-- The prediction stage on a list of rows: the classification `apply`
followed by `df.dropna()` into the exported artifact. -/
def predict_stage (model : List Char → List Char × ℝ) (rows : List PredRow) :
    List PredOutRow :=
  df_dropna (rows.map (predict_stage_row model))

/-! ## Supporting lemmas -/

theorem np_arange_length (stop step : ℝ) :
    (np_arange stop step).length = ⌈stop / step⌉₊ := by
  unfold np_arange
  rw [List.length_map, List.length_range]

theorem densify_length (line : List ℂ) (s : ℝ) :
    (densify_geometry line s).length = ⌈pathLength line / s⌉₊ := by
  unfold densify_geometry
  rw [List.length_map, np_arange_length]

theorem densify_getD (line : List ℂ) (s : ℝ) (i : ℕ)
    (h : i < (densify_geometry line s).length) :
    (densify_geometry line s).getD i 0 = interpolate line ((i : ℝ) * s) := by
  rw [List.getD_eq_getElem _ _ h]
  unfold densify_geometry np_arange
  rw [List.getElem_map, List.getElem_map, List.getElem_range]

theorem segInterp_degenerate (p q : ℂ) (d : ℝ) (h : dist p q = 0) :
    segInterp p q d = p := by
  simp [segInterp, h]

theorem segInterp_zero (p q : ℂ) : segInterp p q 0 = p := by
  unfold segInterp
  split <;> simp

theorem segInterp_end (p q : ℂ) : segInterp p q (dist p q) = q := by
  unfold segInterp
  split
  · next h => rw [← dist_eq_zero.mp h]
  · next h => rw [div_self h, one_smul]; ring

theorem segInterp_dist (p q : ℂ) (a b : ℝ) (h : dist p q ≠ 0) :
    dist (segInterp p q a) (segInterp p q b) = |a - b| := by
  rw [segInterp, segInterp, if_neg h, if_neg h, dist_add_left, dist_eq_norm,
    ← sub_smul, norm_smul, Real.norm_eq_abs, div_sub_div_same, abs_div]
  have hqp : ‖q - p‖ = dist p q := by rw [dist_comm, dist_eq_norm]
  rw [hqp, abs_of_nonneg dist_nonneg, div_mul_cancel₀ _ h]

theorem segInterp_dist_right (p q : ℂ) (a : ℝ) (h0 : 0 ≤ a)
    (h1 : a ≤ dist p q) : dist (segInterp p q a) q = dist p q - a := by
  by_cases h : dist p q = 0
  · have ha : a = 0 := le_antisymm (h ▸ h1) h0
    rw [ha, segInterp_zero, sub_zero]
  · have key := segInterp_dist p q a (dist p q) h
    rw [segInterp_end] at key
    rw [key, abs_sub_comm, abs_of_nonneg (by linarith)]

theorem interpolate_zero (p : ℂ) (l : List ℂ) : interpolate (p :: l) 0 = p := by
  cases l with
  | nil => rfl
  | cons q rest =>
      simp only [interpolate]
      rw [if_pos dist_nonneg, segInterp_zero]

theorem interpolate_lipschitz (l : List ℂ) :
    ∀ a b : ℝ, 0 ≤ a → a ≤ b →
      dist (interpolate l a) (interpolate l b) ≤ b - a := by
  induction l with
  | nil =>
      intro a b _ hab
      simp only [interpolate, dist_self]
      linarith
  | cons p l ih =>
      intro a b ha hab
      cases l with
      | nil =>
          simp only [interpolate, dist_self]
          linarith
      | cons q rest =>
          simp only [interpolate]
          by_cases hb : b ≤ dist p q
          · rw [if_pos (le_trans hab hb), if_pos hb]
            by_cases h : dist p q = 0
            · rw [segInterp_degenerate p q a h, segInterp_degenerate p q b h,
                dist_self]
              linarith
            · rw [segInterp_dist p q a b h, abs_sub_comm,
                abs_of_nonneg (by linarith)]
          · push_neg at hb
            by_cases ha2 : a ≤ dist p q
            · rw [if_pos ha2, if_neg (not_le.mpr hb)]
              have h2 := ih 0 (b - dist p q) le_rfl (by linarith)
              rw [interpolate_zero] at h2
              have h1 := segInterp_dist_right p q a ha ha2
              calc dist (segInterp p q a) (interpolate (q :: rest) (b - dist p q))
                  ≤ dist (segInterp p q a) q +
                      dist q (interpolate (q :: rest) (b - dist p q)) :=
                    dist_triangle _ _ _
                _ ≤ (dist p q - a) + (b - dist p q - 0) := by
                    rw [h1]
                    exact add_le_add_left h2 _
                _ = b - a := by ring
            · push_neg at ha2
              rw [if_neg (not_le.mpr ha2), if_neg (not_le.mpr hb)]
              have := ih (a - dist p q) (b - dist p q) (by linarith) (by linarith)
              linarith

theorem row_contrib_eq (B : ℂ → ℂ → ℝ) (r : RoadRow) (g : List ℂ)
    (hg : r.geometry = some g) :
    row_contrib B r =
      if 1 < (densify_geometry g 0.0002).length then
        ⟨(densify_geometry g 0.0002).map (fun _ => r.name),
         (densify_geometry g 0.0002).map Complex.re,
         (densify_geometry g 0.0002).map Complex.im,
         (densify_geometry g 0.0002).map (fun _ => r.length),
         road_bearings B (densify_geometry g 0.0002)⟩
      else empty_df := by
  unfold row_contrib
  rw [hg]

theorem road_bearings_getD (B : ℂ → ℂ → ℝ) (pts : List ℂ) (i : ℕ)
    (hi : i < pts.length) :
    (road_bearings B pts).getD i 0 =
      if i = 0 then B (pts.getD 1 0) (pts.getD 0 0)
      else B (pts.getD i 0) (pts.getD (i - 1) 0) := by
  unfold road_bearings
  rw [List.getD_eq_getElem _ _
    (by rw [List.length_map, List.length_range]; exact hi)]
  rw [List.getElem_map, List.getElem_range]
  by_cases h : i = 0
  · subst h; simp
  · simp [h]

theorem py_replace_append (pat rep : Char) (a b : List Char) :
    py_replace pat rep (a ++ b) = py_replace pat rep a ++ py_replace pat rep b :=
  List.map_append _ a b

theorem py_replace_comma_free (l : List Char) (hl : ',' ∉ l) :
    py_replace ',' '_' l = l := by
  unfold py_replace
  calc l.map (fun c => if c = ',' then '_' else c) = l.map id :=
        List.map_congr_left (fun a ha => if_neg (fun h : a = ',' => hl (h ▸ ha)))
    _ = l := List.map_id l

/-! ## Claims -/

/-- C1 (amended): for every road path and step size s > 0, densify_geometry
called with crs=None produces exactly `ceil(length / s)` sample points —
one more than `floor(length / s)` whenever s does not divide the arc
length — and the k-th point is interpolated at arc-length distance `k * s`
along the path. -/
theorem densify_count_and_positions (line : List ℂ) (s : ℝ) (_hs : 0 < s) :
    (densify_geometry line s).length = ⌈pathLength line / s⌉₊ ∧
    ∀ i : ℕ, i < (densify_geometry line s).length →
      (densify_geometry line s).getD i 0 = interpolate line ((i : ℝ) * s) :=
  ⟨densify_length line s, fun i hi => densify_getD line s i hi⟩

/-- C1 witness: on the straight path from 0 to 10 with step 3 the theorem
applies, and the point count is ceil(10 / 3) = 4. -/
theorem densify_count_and_positions_witness :
    (0 : ℝ) < 3 ∧
    (densify_geometry [(0 : ℂ), 10] 3).length = ⌈pathLength [(0 : ℂ), 10] / 3⌉₊ :=
  ⟨by norm_num, (densify_count_and_positions [(0 : ℂ), 10] 3 (by norm_num)).1⟩

/-- C1 counterexample: the straight path from 0 to 10 has arc length 10;
with step 3 the code produces 4 sample points, while floor(10 / 3) = 3, so
the point count is not floor(length / s). -/
theorem densify_count_floor_counterexample :
    (densify_geometry [(0 : ℂ), 10] 3).length = 4 ∧
    ⌊pathLength [(0 : ℂ), 10] / 3⌋₊ = 3 := by
  have hlen : pathLength [(0 : ℂ), 10] = 10 := by simp [pathLength]
  constructor
  · rw [densify_length, hlen, Nat.ceil_eq_iff] <;> norm_num
  · rw [hlen, Nat.floor_eq_iff] <;> norm_num

/-- C9: for every path densified with step s > 0, every produced sample
point lies within Euclidean distance s of its predecessor, because
consecutive points are s apart in arc length and arc-length interpolation
along a piecewise-linear path is 1-Lipschitz into the plane. -/
theorem densify_consecutive_dist_le (line : List ℂ) (s : ℝ) (hs : 0 < s)
    (i : ℕ) (hi : i + 1 < (densify_geometry line s).length) :
    dist ((densify_geometry line s).getD i 0)
      ((densify_geometry line s).getD (i + 1) 0) ≤ s := by
  rw [densify_getD line s i (Nat.lt_of_succ_lt hi), densify_getD line s (i + 1) hi]
  have key := interpolate_lipschitz line ((i : ℝ) * s) (((i : ℝ) + 1) * s)
    (mul_nonneg (Nat.cast_nonneg i) hs.le)
    (mul_le_mul_of_nonneg_right (by linarith) hs.le)
  have hs' : ((i : ℝ) + 1) * s - (i : ℝ) * s = s := by ring
  push_cast
  linarith

/-- C9 witness: the straight path from 0 to 1 with step 1/2 has two sample
points, and the theorem bounds the distance between them by 1/2. -/
theorem densify_consecutive_dist_le_witness :
    (0 : ℝ) < 1 / 2 ∧ 0 + 1 < (densify_geometry [(0 : ℂ), 1] (1 / 2)).length ∧
    dist ((densify_geometry [(0 : ℂ), 1] (1 / 2)).getD 0 0)
      ((densify_geometry [(0 : ℂ), 1] (1 / 2)).getD (0 + 1) 0) ≤ 1 / 2 := by
  have hl : (densify_geometry [(0 : ℂ), 1] (1 / 2)).length = 2 := by
    rw [densify_length]
    have hp : pathLength [(0 : ℂ), 1] = 1 := by simp [pathLength]
    rw [hp, show (1 : ℝ) / (1 / 2) = 2 by norm_num]
    simp
  exact ⟨by norm_num, by rw [hl]; norm_num,
    densify_consecutive_dist_le [(0 : ℂ), 1] (1 / 2) (by norm_num) 0
      (by rw [hl]; norm_num)⟩

/-- C10: every call of densify_geometry with a non-None crs fails with a
NameError before returning, because the georeferencing branch reads the
never-defined name new_line (its construction is commented out); the
normal coordinate-list result is returned exactly when crs is None. -/
theorem densify_crs_branch_fails (line : List ℂ) (s : ℝ) :
    (∀ c : ℕ, densify_geometry_with_crs line s (some c) =
      .error "NameError: name new_line is not defined".toList) ∧
    densify_geometry_with_crs line s none = .ok (densify_geometry line s) :=
  ⟨fun _ => rfl, rfl⟩

/-- C2 (amended): for every retained path whose densification has at least
two points, gather_road_points appends the road_bearings column for those
points; there, for every index i ≥ 1 the recorded bearing is the bearing
routine applied to the pair (p_i, p_(i-1)) — the forward azimuth of the
current→previous direction — and the bearing recorded at the first point is
the routine applied to (p_1, p_0), the same value as at the second point. -/
theorem gather_bearing_pairs (B : ℂ → ℂ → ℝ) (r : RoadRow) (g : List ℂ)
    (rest : List RoadRow) (hg : r.geometry = some g)
    (hh : ¬r.highway = "service".toList)
    (hlen : 1 < (densify_geometry g 0.0002).length) :
    (gather_road_points B (r :: rest)).bearing =
      road_bearings B (densify_geometry g 0.0002) ++
        (gather_road_points B rest).bearing ∧
    (∀ i : ℕ, 0 < i → i < (densify_geometry g 0.0002).length →
      (road_bearings B (densify_geometry g 0.0002)).getD i 0 =
        B ((densify_geometry g 0.0002).getD i 0)
          ((densify_geometry g 0.0002).getD (i - 1) 0)) ∧
    (road_bearings B (densify_geometry g 0.0002)).getD 0 0 =
      B ((densify_geometry g 0.0002).getD 1 0)
        ((densify_geometry g 0.0002).getD 0 0) := by
  refine ⟨?_, fun i hi0 hilen => ?_, ?_⟩
  · have hr : retained_row r = true := by
      simp [retained_row, hg]
      simpa using hh
    unfold gather_road_points
    rw [List.filter_cons, if_pos hr, List.map_cons, List.foldr_cons,
      row_contrib_eq B r g hg, if_pos hlen]
    rfl
  · rw [road_bearings_getD B _ i hilen, if_neg (Nat.pos_iff_ne_zero.mp hi0)]
  · rw [road_bearings_getD B _ 0 (by omega), if_pos rfl]

/-- C2 witness: a retained residential row with the unit straight segment
as geometry densifies to 5000 points, and the theorem gives the recorded
first-point bearing as the bearing routine applied to (p_1, p_0). -/
theorem gather_bearing_pairs_witness :
    1 < (densify_geometry [(0 : ℂ), 1] 0.0002).length ∧
    (road_bearings (fun p q => p.re - q.re)
        (densify_geometry [(0 : ℂ), 1] 0.0002)).getD 0 0 =
      (fun p q : ℂ => p.re - q.re)
        ((densify_geometry [(0 : ℂ), 1] 0.0002).getD 1 0)
        ((densify_geometry [(0 : ℂ), 1] 0.0002).getD 0 0) := by
  have hl : (densify_geometry [(0 : ℂ), 1] 0.0002).length = 5000 := by
    rw [densify_length]
    have hp : pathLength [(0 : ℂ), 1] = 1 := by simp [pathLength]
    rw [hp, show (1 : ℝ) / 0.0002 = 5000 by norm_num]
    simp
  refine ⟨by rw [hl]; norm_num, ?_⟩
  exact (gather_bearing_pairs (fun p q => p.re - q.re)
    ⟨some [0, 1], "residential".toList, "Main".toList, 5⟩ [0, 1] []
    rfl (by decide) (by rw [hl]; norm_num)).2.2

/-- C2 counterexample: on the eastward straight path p0 = 0, p1 = 1, p2 = 2
with the modelled forward azimuth, the bearing recorded at index 1 is the
azimuth 270 of the current→previous (westward) direction, not the azimuth
90 of the previous→current (eastward) direction that the claim states. -/
theorem gather_bearing_pairs_counterexample :
    (road_bearings forward_azimuth [0, 1, 2]).getD 1 0 =
      forward_azimuth 1 0 ∧
    forward_azimuth (1 : ℂ) 0 = 270 ∧
    forward_azimuth (0 : ℂ) 1 = 90 ∧
    (road_bearings forward_azimuth [0, 1, 2]).getD 1 0 ≠
      forward_azimuth (0 : ℂ) 1 := by
  have h10 : forward_azimuth (1 : ℂ) 0 = 270 := by
    unfold forward_azimuth
    norm_num
  have h01 : forward_azimuth (0 : ℂ) 1 = 90 := by
    unfold forward_azimuth
    norm_num
  have hmain : (road_bearings forward_azimuth [0, 1, 2]).getD 1 0 =
      forward_azimuth 1 0 := by
    rw [road_bearings_getD forward_azimuth [0, 1, 2] 1 (by norm_num)]
    norm_num
  exact ⟨hmain, h10, h01, by rw [hmain, h10, h01]; norm_num⟩

/-- C6: a road row whose geometry is null or whose highway classification
is the excluded service type contributes nothing to the output of
gather_road_points (the output over a frame containing it equals the
output with the row removed; the total embedding raises no error). -/
theorem gather_excluded_row (B : ℂ → ℂ → ℝ) (r : RoadRow)
    (rest : List RoadRow)
    (h : r.geometry = none ∨ r.highway = "service".toList) :
    gather_road_points B (r :: rest) = gather_road_points B rest := by
  have hr : retained_row r = false := by
    cases h with
    | inl h => simp [retained_row, h]
    | inr h => simp [retained_row, h]
  unfold gather_road_points
  rw [List.filter_cons, if_neg (by simp [hr])]

/-- C6 witness: a single null-geometry row produces the empty output. -/
theorem gather_excluded_row_witness :
    gather_road_points (fun _ _ => (0 : ℝ))
      [⟨none, "residential".toList, "Main".toList, 5⟩] = empty_df := by
  rw [gather_excluded_row (fun _ _ => (0 : ℝ))
    ⟨none, "residential".toList, "Main".toList, 5⟩ [] (Or.inl rfl)]
  rfl

/-- C7: a road row whose densification yields fewer than two sample points
(degenerate zero-length geometries yield none at all) contributes nothing
to the output of gather_road_points, and no error is raised (the embedding
is total and the output equals the output without the row). -/
theorem gather_short_path_dropped (B : ℂ → ℂ → ℝ) (r : RoadRow) (g : List ℂ)
    (rest : List RoadRow) (hg : r.geometry = some g)
    (hlen : (densify_geometry g 0.0002).length ≤ 1) :
    gather_road_points B (r :: rest) = gather_road_points B rest := by
  unfold gather_road_points
  by_cases hr : retained_row r = true
  · rw [List.filter_cons, if_pos hr, List.map_cons, List.foldr_cons,
      row_contrib_eq B r g hg, if_neg (by omega)]
    rfl
  · rw [List.filter_cons, if_neg hr]

/-- C7 witness: the zero-length segment from 0 to 0 densifies to zero
points, and a retained row carrying it produces the empty output. -/
theorem gather_short_path_dropped_witness :
    (densify_geometry [(0 : ℂ), 0] 0.0002).length ≤ 1 ∧
    gather_road_points (fun _ _ => (0 : ℝ))
      [⟨some [0, 0], "residential".toList, "Main".toList, 5⟩] = empty_df := by
  have hl : (densify_geometry [(0 : ℂ), 0] 0.0002).length = 0 := by
    rw [densify_length]
    simp [pathLength]
  refine ⟨by omega, ?_⟩
  rw [gather_short_path_dropped (fun _ _ => (0 : ℝ))
    ⟨some [0, 0], "residential".toList, "Main".toList, 5⟩ [0, 0] [] rfl (by omega)]
  rfl

/-- C3: a metadata lookup that returns a non-success status makes
gather_google_streetview_meta fall through to None and the fetch stage
skips the row with no image and no error; but a lookup that raises makes it
return the pd.NA sentinel, on which the fetch-stage apply is not skipped
(pd.NA != None is True in Python) and the download call on pd.NA raises,
so the claimed silent skip of the exception case does not happen. -/
theorem meta_lookup_failure_behavior (lat lon bearing creds dir : List Char)
    (fs : List (List Char)) :
    gather_google_streetview_meta lat lon bearing creds
      (fun _ => ApiOutcome.raises) = MetaReturn.pdNA ∧
    fetch_stage_row MetaReturn.pdNA dir fs =
      .error "AttributeError: NA has no attribute metadata".toList ∧
    gather_google_streetview_meta lat lon bearing creds
      (fun _ => ApiOutcome.returns "ZERO_RESULTS".toList []) =
        MetaReturn.pynone ∧
    fetch_stage_row MetaReturn.pynone dir fs = .ok ⟨none, fs, 0⟩ := by
  exact ⟨rfl, rfl, rfl, rfl⟩

/-- C4 (amended): for every successful imagery result, the persisted image
filename is deterministically derived from the exact, unrounded string
representations of the latitude and longitude plus the heading, following
the pattern lat_lon_heading.jpg, and the download path for a successful
result is that filename under the data directory. -/
theorem filename_from_exact_coordinates (lat lon bearing creds status : List Char)
    (links : List (List Char)) (dir : List Char) (fs : List (List Char))
    (hlat : ',' ∉ lat) (hlon : ',' ∉ lon) :
    derived_filename ⟨mk_params lat lon bearing creds, status, links⟩ =
      lat ++ ['_'] ++ lon ++ ['_'] ++ bearing ++ ".jpg".toList ∧
    (download_google_streetview_image
        ⟨mk_params lat lon bearing creds, "OK".toList, links⟩ dir fs).path =
      some (dir ++ ['/'] ++
        (lat ++ ['_'] ++ lon ++ ['_'] ++ bearing ++ ".jpg".toList)) := by
  have h1 : derived_filename ⟨mk_params lat lon bearing creds, status, links⟩ =
      lat ++ ['_'] ++ lon ++ ['_'] ++ bearing ++ ".jpg".toList := by
    unfold derived_filename mk_params
    rw [py_replace_append, py_replace_append, py_replace_comma_free lat hlat,
      py_replace_comma_free lon hlon]
    rfl
  have h1' : derived_filename ⟨mk_params lat lon bearing creds, "OK".toList, links⟩ =
      lat ++ ['_'] ++ lon ++ ['_'] ++ bearing ++ ".jpg".toList := by
    unfold derived_filename mk_params
    rw [py_replace_append, py_replace_append, py_replace_comma_free lat hlat,
      py_replace_comma_free lon hlon]
    rfl
  refine ⟨h1, ?_⟩
  unfold download_google_streetview_image
  rw [if_neg (by simp)]
  split <;> rw [h1']

/-- C4 witness: concrete comma-free coordinate and heading strings produce
the lat_lon_heading.jpg filename from the exact strings. -/
theorem filename_from_exact_coordinates_witness :
    ',' ∉ "41.5".toList ∧ ',' ∉ "-87.25".toList ∧
    derived_filename
        ⟨mk_params "41.5".toList "-87.25".toList "90.0".toList "k".toList,
         "OK".toList, []⟩ =
      "41.5".toList ++ ['_'] ++ "-87.25".toList ++ ['_'] ++ "90.0".toList ++
        ".jpg".toList :=
  ⟨by decide, by decide,
    (filename_from_exact_coordinates "41.5".toList "-87.25".toList
      "90.0".toList "k".toList "OK".toList [] [] [] (by decide) (by decide)).1⟩

/-- C4 counterexample: for the full-precision latitude string produced by
the float representation, the derived filename contains the full string and
differs from the filename built from the 6-decimal rounded coordinates (the
precision the tabular display shows), so the filename is not derived from
rounded coordinates. -/
theorem filename_rounding_counterexample :
    derived_filename
        ⟨mk_params "41.87997297318595".toList "-87.67906862799467".toList
          "0.25".toList "k".toList, "OK".toList, []⟩ =
      "41.87997297318595_-87.67906862799467_0.25.jpg".toList ∧
    derived_filename
        ⟨mk_params "41.87997297318595".toList "-87.67906862799467".toList
          "0.25".toList "k".toList, "OK".toList, []⟩ ≠
      "41.879973_-87.679069_0.25.jpg".toList := by
  constructor <;> decide

/-- C5: when the image file for a successful result already exists on disk
under its derived path, the download function performs zero downloads,
leaves the filesystem unchanged, and returns that path — the same path it
returns on any run, since the path depends only on the result. -/
theorem fetch_idempotent (r : SVResults) (dir : List Char)
    (fs : List (List Char)) (hok : r.status = "OK".toList)
    (hex : dir ++ ['/'] ++ derived_filename r ∈ fs) :
    download_google_streetview_image r dir fs =
      ⟨some (dir ++ ['/'] ++ derived_filename r), fs, 0⟩ ∧
    ∀ fs0 : List (List Char),
      (download_google_streetview_image r dir fs0).path =
        some (dir ++ ['/'] ++ derived_filename r) := by
  constructor
  · unfold download_google_streetview_image
    rw [if_neg (by simp [hok]), if_pos hex]
  · intro fs0
    unfold download_google_streetview_image
    rw [if_neg (by simp [hok])]
    split <;> rfl

/-- C5 witness: with the derived file d/1.5_2.5_90.0.jpg already present,
the download returns that path, keeps the filesystem unchanged and performs
zero downloads. -/
theorem fetch_idempotent_witness :
    (⟨⟨"640x640".toList, "1.5,2.5".toList, "90.0".toList, "k".toList⟩,
        "OK".toList, []⟩ : SVResults).status = "OK".toList ∧
    "d".toList ++ ['/'] ++
        derived_filename ⟨⟨"640x640".toList, "1.5,2.5".toList, "90.0".toList,
          "k".toList⟩, "OK".toList, []⟩ ∈ ["d/1.5_2.5_90.0.jpg".toList] ∧
    download_google_streetview_image
        ⟨⟨"640x640".toList, "1.5,2.5".toList, "90.0".toList, "k".toList⟩,
          "OK".toList, []⟩ "d".toList ["d/1.5_2.5_90.0.jpg".toList] =
      ⟨some ("d".toList ++ ['/'] ++
          derived_filename ⟨⟨"640x640".toList, "1.5,2.5".toList, "90.0".toList,
            "k".toList⟩, "OK".toList, []⟩),
        ["d/1.5_2.5_90.0.jpg".toList], 0⟩ :=
  ⟨rfl, by decide,
    (fetch_idempotent
      ⟨⟨"640x640".toList, "1.5,2.5".toList, "90.0".toList, "k".toList⟩,
        "OK".toList, []⟩ "d".toList ["d/1.5_2.5_90.0.jpg".toList]
      rfl (by decide)).1⟩

/-- C8: in the prediction stage, classification is attempted exactly on
rows carrying an image reference — a row without one passes through the
classification step with its input columns unchanged and its prediction
columns missing, and no such row appears in the exported dropna output —
while a row with an image gets both prediction columns from the model. -/
theorem predict_only_with_image (model : List Char → List Char × ℝ)
    (rows : List PredRow) (r : PredRow)
    (h : r.google_streetview_image = none) :
    pred_base (predict_stage_row model r) = r ∧
    (predict_stage_row model r).schoolsign_prediction = none ∧
    (predict_stage_row model r).schoolsign_prediction_prob = none ∧
    predict_stage_row model r ∉ predict_stage model rows ∧
    ∀ (r2 : PredRow) (img : List Char),
      r2.google_streetview_image = some img →
      predict_stage_row model r2 =
        ⟨r2.road_name, r2.lon, r2.lat, r2.road_length, r2.bearing, some img,
         some (model img).1, some (model img).2⟩ := by
  obtain ⟨nm, lo, la, le, be, img⟩ := r
  simp only at h
  subst h
  refine ⟨rfl, rfl, rfl, ?_, ?_⟩
  · intro hmem
    unfold predict_stage df_dropna at hmem
    have hpred := List.of_mem_filter hmem
    simp [predict_stage_row] at hpred
  · intro r2 img2 h2
    obtain ⟨nm2, lo2, la2, le2, be2, img3⟩ := r2
    simp only at h2
    subst h2
    rfl

/-- C8 witness: a row without an image is not in the exported output of a
prediction stage run over the single-row frame containing it. -/
theorem predict_only_with_image_witness :
    (⟨"a".toList, 0, 0, 0, 0, none⟩ : PredRow).google_streetview_image =
      none ∧
    predict_stage_row (fun _ => ("schoolsign".toList, (100 : ℝ)))
        ⟨"a".toList, 0, 0, 0, 0, none⟩ ∉
      predict_stage (fun _ => ("schoolsign".toList, (100 : ℝ)))
        [⟨"a".toList, 0, 0, 0, 0, none⟩] :=
  ⟨rfl, (predict_only_with_image (fun _ => ("schoolsign".toList, (100 : ℝ)))
    [⟨"a".toList, 0, 0, 0, 0, none⟩] ⟨"a".toList, 0, 0, 0, 0, none⟩
    rfl).2.2.2.1⟩

end SchoolZone
